import Mathlib

/-!
Verification development for the booking-sync service: a webhook handler
(`pkg/handler/webhook.go`) that reconciles SimplyBook booking notifications
against a Google Calendar through a calendar client (`pkg/gcalendar/client.go`).

Shallow embedding conventions:
* Remote calls (SimplyBook `GetBooking`, the Google Calendar service calls)
  are modelled by passing their results in as explicit `Except` oracles;
  the embedded functions mirror the Go control flow around those results.
* Go errors are `Except String` values carrying the `fmt.Errorf` message
  (with `%w` wrapping rendered as string concatenation).
* Calendar mutations performed by a handler are recorded as a `List CalCall`
  so that theorems can state which create/update/delete calls were made.
* A second, explicit-state calendar model (`Calendar`) interprets those
  calls, so that replay/idempotence properties can be stated as theorems
  about iterated processing.
-/

/-! ## Go string helpers -/

/-- Model of Go `strings.ToLower`: per-character Unicode lowercasing. -/
def stringsToLower (s : String) : String := ⟨s.data.map Char.toLower⟩

/-- Character-list prefix test (needle is a prefix of the haystack). -/
def listStartsWith : List Char → List Char → Bool
  | [], _ => true
  | _ :: _, [] => false
  | a :: as, b :: bs => a == b && listStartsWith as bs

/-- Character-list substring test (needle occurs contiguously in the haystack). -/
def listHasSub (needle : List Char) : List Char → Bool
  | [] => needle.isEmpty
  | b :: bs => listStartsWith needle (b :: bs) || listHasSub needle bs

/-- `strContainsSub hay q`: the query string `q` occurs as a substring of `hay`. -/
def strContainsSub (hay q : String) : Bool := listHasSub q.data hay.data

/-! ## Time model

Go's `time.Time` stores an absolute instant plus a location; with the fixed
offsets this service uses (no daylight saving), a location is just an offset.
`Format(time.RFC3339)` renders the instant's civil (wall-clock) time in the
time's own location together with an explicit numeric offset; it never shifts
the wall clock.  `encoding/json` parses a `time.Time` from an RFC3339 string,
which always carries an explicit offset, by the inverse computation.
Civil date-times are linearized to seconds, which is faithful for the
shift/no-shift distinction these claims are about. -/

/-- An RFC3339 date-time string: a civil (wall-clock) time, linearized to
seconds, together with its explicit offset. Every RFC3339 value carries an
offset, so nothing representable here is timezone-naive. -/
structure RFC3339 where
  civilSeconds : Int
  offsetMinutes : Int
deriving DecidableEq

/-- Model of Go `time.Time`: absolute seconds since the epoch plus the fixed
offset of the value's location. -/
structure GoTime where
  absSeconds : Int
  offsetMinutes : Int
deriving DecidableEq

/-- Model of parsing an RFC3339 string into a `time.Time` (as `encoding/json`
does for `Booking.StartTime`/`EndTime`): the absolute instant is the civil
time minus the offset, and the offset becomes the value's location. -/
def timeParseRFC3339 (s : RFC3339) : GoTime :=
  { absSeconds := s.civilSeconds - s.offsetMinutes * 60
    offsetMinutes := s.offsetMinutes }

/-- Model of Go `t.Format(time.RFC3339)`: render the civil time of the
instant in the value's own location, with that location's explicit offset. -/
def timeFormatRFC3339 (t : GoTime) : RFC3339 :=
  { civilSeconds := t.absSeconds + t.offsetMinutes * 60
    offsetMinutes := t.offsetMinutes }

/-! ## SimplyBook data model (`pkg/simplybook/models.go`) -/

/-- `simplybook.Booking` (pkg/simplybook/models.go). -/
structure Booking where
  id : String
  clientName : String
  clientEmail : String
  clientPhone : String
  startTime : GoTime
  endTime : GoTime
  code : String
  confirmed : Bool
  serviceID : String
  serviceName : String
  providerID : String
  providerName : String
  notes : String
  status : String
deriving DecidableEq

/-- `simplybook.WebhookPayload` (pkg/simplybook/models.go). -/
structure WebhookPayload where
  action : String
  bookingID : String
  clientID : String
  providerID : String
  serviceID : String
  timestamp : String
deriving DecidableEq

/-! ## Google Calendar client (`pkg/gcalendar/client.go`) -/

/-- `gcalendar.CalendarEvent` (pkg/gcalendar/client.go). -/
structure CalendarEvent where
  id : String
  summary : String
  description : String
  location : String
  startTime : GoTime
  endTime : GoTime
  attendees : List String
deriving DecidableEq

/-- Error answered by the Google Calendar service for a single API call. -/
inductive CalError where
  | notFound
  | other (msg : String)
deriving DecidableEq

/-- The `err.Error()` string of a calendar service error. -/
def CalError.message : CalError → String
  | .notFound => "googleapi: Error 404: Not Found"
  | .other msg => msg

/-- `calendar.EventDateTime`: the `DateTime` RFC3339 string plus the
`TimeZone` field, as written by `CreateEvent`/`UpdateEvent`. -/
structure EventDateTime where
  dateTime : RFC3339
  timeZone : String
deriving DecidableEq

/-- The `calendar.Event` body assembled by `CreateEvent` and `UpdateEvent`
(the Go field `End` is named `endTime` here, `end` being reserved in Lean). -/
structure GEventBody where
  summary : String
  description : String
  location : String
  start : EventDateTime
  endTime : EventDateTime
  attendees : List String
deriving DecidableEq

/-- The `calendar.Event` body built identically at client.go lines 57-69
(`CreateEvent`) and lines 90-102 (`UpdateEvent`): times formatted with
`Format(time.RFC3339)` and `TimeZone: "Asia/Taipei"`; attendees copied. -/
def eventBodyOf (event : CalendarEvent) : GEventBody :=
  { summary := event.summary
    description := event.description
    location := event.location
    start := { dateTime := timeFormatRFC3339 event.startTime, timeZone := "Asia/Taipei" }
    endTime := { dateTime := timeFormatRFC3339 event.endTime, timeZone := "Asia/Taipei" }
    attendees := event.attendees }

/-- `(*Client).CreateEvent`: builds the event body, calls the service insert
(whose result is the oracle `svc`, giving the new event id), and wraps any
error as `創建事件失敗: %w`.  Returns the body sent plus the Go result. -/
def CreateEvent (event : CalendarEvent) (svc : Except CalError String) :
    GEventBody × Except String String :=
  (eventBodyOf event,
    match svc with
    | .error e => .error ("創建事件失敗: " ++ e.message)
    | .ok newId => .ok newId)

/-- `(*Client).UpdateEvent`: builds the same event body, calls the service
update on `eventID` (oracle `svc`), wrapping any error as `更新事件失敗: %w`.
Every service error, `notFound` included, is wrapped and returned. -/
def UpdateEvent (eventID : String) (event : CalendarEvent) (svc : Except CalError Unit) :
    GEventBody × Except String Unit :=
  (eventBodyOf event,
    match svc with
    | .error e => .error ("更新事件失敗: " ++ e.message)
    | .ok _ => .ok ())

/-- `(*Client).DeleteEvent`: calls the service delete on `eventID` (oracle
`svc`) and wraps any error as `刪除事件失敗: %w`.  There is no special case:
every service error, `notFound` included, is wrapped and returned. -/
def DeleteEvent (eventID : String) (svc : Except CalError Unit) : Except String Unit :=
  match svc with
  | .error e => .error ("刪除事件失敗: " ++ e.message)
  | .ok _ => .ok ()

/-- One item of the service's `Events.List(...).Q(query)` response. -/
structure GEventItem where
  id : String
deriving DecidableEq

/-- `(*Client).FindEventByBookingCode`: the oracle `svc` is the service's
search response (the `events.Items` list, or an error).  On error the message
is wrapped as `搜尋事件失敗: %w`; an empty item list yields `("", nil)`;
otherwise `events.Items[0].Id` is returned.  The second component lists the
log lines this function emits: the source contains no log statement, so it is
always empty. -/
def FindEventByBookingCode (svc : Except CalError (List GEventItem)) :
    Except String String × List String :=
  match svc with
  | .error e => (.error ("搜尋事件失敗: " ++ e.message), [])
  | .ok items =>
    match items with
    | [] => (.ok "", [])
    | item :: _ => (.ok item.id, [])

/-! ## Webhook handler (`pkg/handler/webhook.go`) -/

/-- A calendar mutation call made by a handler, with the payload sent. -/
inductive CalCall where
  | create (body : GEventBody)
  | update (eventID : String) (body : GEventBody)
  | delete (eventID : String)
deriving DecidableEq

/-- Is this calendar call a create? -/
def CalCall.isCreate : CalCall → Bool
  | .create _ => true
  | _ => false

/-- The remote calls made while processing one webhook event: whether the
booking was fetched from SimplyBook, whether the calendar was searched, and
the calendar mutation calls issued. -/
structure Trace where
  fetchedBooking : Bool
  searchedCalendar : Bool
  calCalls : List CalCall
deriving DecidableEq

/-- `createCalendarEventFromBooking` (webhook.go lines 182-202): description
is the booking code, summary the client name; attendees are not set (the
attendee block is commented out in the source). -/
def createCalendarEventFromBooking (booking : Booking) : CalendarEvent :=
  let description := booking.code
  let summary := booking.clientName
  { id := ""
    summary := summary
    description := description
    location := ""
    startTime := booking.startTime
    endTime := booking.endTime
    attendees := [] }

/-- `handleBookingCreated` (webhook.go lines 123-139): if an event id was
found, return nil without any calendar call; otherwise create the event,
wrapping a create failure as `創建日曆事件失敗: %w`.  `createSvc` is the
calendar service's answer to the insert. -/
def handleBookingCreated (booking : Booking) (eventID bookingID : String)
    (createSvc : Except CalError String) : List CalCall × Except String Unit :=
  if eventID ≠ "" then
    ([], .ok ())
  else
    let calEvent := createCalendarEventFromBooking booking
    let r := CreateEvent calEvent createSvc
    match r.2 with
    | .error e => ([.create r.1], .error ("創建日曆事件失敗: " ++ e))
    | .ok _ => ([.create r.1], .ok ())

/-- `handleBookingUpdated` (webhook.go lines 142-162): if no event id was
found, create a new event (wrapping failure as `創建日曆事件失敗: %w`);
otherwise update the found event in place (wrapping failure as
`更新日曆事件失敗: %w`).  There is no fallback from a failed update to a
create. -/
def handleBookingUpdated (booking : Booking) (eventID bookingID : String)
    (createSvc : Except CalError String) (updateSvc : Except CalError Unit) :
    List CalCall × Except String Unit :=
  if eventID = "" then
    let calEvent := createCalendarEventFromBooking booking
    let r := CreateEvent calEvent createSvc
    match r.2 with
    | .error e => ([.create r.1], .error ("創建日曆事件失敗: " ++ e))
    | .ok _ => ([.create r.1], .ok ())
  else
    let calEvent := createCalendarEventFromBooking booking
    let r := UpdateEvent eventID calEvent updateSvc
    match r.2 with
    | .error e => ([.update eventID r.1], .error ("更新日曆事件失敗: " ++ e))
    | .ok _ => ([.update eventID r.1], .ok ())

/-- `handleBookingDeleted` (webhook.go lines 165-179): if no event id was
found, return nil without any calendar call; otherwise delete the event,
wrapping a delete failure as `刪除日曆事件失敗: %w`. -/
def handleBookingDeleted (eventID bookingID : String)
    (deleteSvc : Except CalError Unit) : List CalCall × Except String Unit :=
  if eventID = "" then
    ([], .ok ())
  else
    match DeleteEvent eventID deleteSvc with
    | .error e => ([.delete eventID], .error ("刪除日曆事件失敗: " ++ e))
    | .ok _ => ([.delete eventID], .ok ())

/-- `getBookingAndEvent` (webhook.go lines 106-120): fetch the booking
(oracle `gb` = `GetBooking`'s result), wrapping failure as
`獲取預約詳情失敗: %w`; then search the calendar by the booking's code
(oracle `findr` = `FindEventByBookingCode`'s result), wrapping failure as
`查找日曆事件失敗: %w`.  The Go version also returns the booking alongside a
find error, but the only caller discards it when the error is non-nil, so the
pair is returned only on success. -/
def getBookingAndEvent (gb : Except String Booking) (findr : Except String String) :
    Except String (Booking × String) :=
  match gb with
  | .error e => .error ("獲取預約詳情失敗: " ++ e)
  | .ok booking =>
    match findr with
    | .error e => .error ("查找日曆事件失敗: " ++ e)
    | .ok eventID => .ok (booking, eventID)

/-- `processWebhookEvent` (webhook.go lines 81-103): first `getBookingAndEvent`
is called unconditionally (so the booking fetch always happens, and the
calendar search happens whenever the fetch succeeded), and only then is
`strings.ToLower(payload.Action)` dispatched over `create`/`update`/`cancel`,
any other action yielding the error `不支持的操作類型: <original action>`
with no calendar call. -/
def processWebhookEvent (payload : WebhookPayload) (gb : Except String Booking)
    (findr : Except String String) (createSvc : Except CalError String)
    (updateSvc : Except CalError Unit) (deleteSvc : Except CalError Unit) :
    Trace × Except String Unit :=
  let searched : Bool := match gb with | .ok _ => true | .error _ => false
  match getBookingAndEvent gb findr with
  | .error e =>
    ({ fetchedBooking := true, searchedCalendar := searched, calCalls := [] }, .error e)
  | .ok (booking, eventID) =>
    let action := stringsToLower payload.action
    if action = "create" then
      let r := handleBookingCreated booking eventID payload.bookingID createSvc
      ({ fetchedBooking := true, searchedCalendar := true, calCalls := r.1 }, r.2)
    else if action = "update" then
      let r := handleBookingUpdated booking eventID payload.bookingID createSvc updateSvc
      ({ fetchedBooking := true, searchedCalendar := true, calCalls := r.1 }, r.2)
    else if action = "cancel" then
      let r := handleBookingDeleted eventID payload.bookingID deleteSvc
      ({ fetchedBooking := true, searchedCalendar := true, calCalls := r.1 }, r.2)
    else
      ({ fetchedBooking := true, searchedCalendar := true, calCalls := [] },
        .error ("不支持的操作類型: " ++ payload.action))

/-! ## Explicit-state calendar model

An interpretation of the calendar service used to state replay properties:
stored events, content search over summary/description/location (modelling
the `Events.List(...).Q(query)` free-text search), inserts that assign fresh
non-empty ids in order, and update/delete by id. -/

/-- An event stored in the calendar: its id plus the body it was written with. -/
structure StoredEvent where
  id : String
  body : GEventBody
deriving DecidableEq

/-- The calendar's state: stored events plus a counter for fresh ids. -/
structure Calendar where
  items : List StoredEvent
  nextId : Nat
deriving DecidableEq

/-- Does the free-text query `q` match a stored event?  The service's content
search looks at the event's textual fields; summary, description and location
are the ones this program writes. -/
def matchesQuery (q : String) (e : StoredEvent) : Bool :=
  strContainsSub e.body.summary q || strContainsSub e.body.description q ||
    strContainsSub e.body.location q

/-- The search result `FindEventByBookingCode` sees against this state: the
id of the first matching stored event, or `""` when none matches. -/
def calFind (cal : Calendar) (q : String) : String :=
  match cal.items.filter (matchesQuery q) with
  | [] => ""
  | e :: _ => e.id

/-- The id the service assigns to the `n`-th inserted event (never empty). -/
def freshId (n : Nat) : String := "evt" ++ toString n

/-- Service insert: store the body under a fresh id; answer the new id. -/
def calInsert (cal : Calendar) (body : GEventBody) : Calendar × String :=
  let newId := freshId cal.nextId
  ({ items := cal.items ++ [{ id := newId, body := body }], nextId := cal.nextId + 1 },
    newId)

/-- Service update: replace the body of the event with the given id. -/
def calUpdate (cal : Calendar) (eid : String) (body : GEventBody) : Calendar :=
  { cal with items := cal.items.map (fun e => if e.id = eid then { e with body := body } else e) }

/-- Service delete: remove the event with the given id. -/
def calDelete (cal : Calendar) (eid : String) : Calendar :=
  { cal with items := cal.items.filter (fun e => e.id ≠ eid) }

/-- Interpret one recorded calendar call against the state. -/
def applyCall (cal : Calendar) (c : CalCall) : Calendar :=
  match c with
  | .create body => (calInsert cal body).1
  | .update eid body => calUpdate cal eid body
  | .delete eid => calDelete cal eid

/-- One complete processing of a Create notification for booking `b` against
calendar state `cal`: the search result fed to `handleBookingCreated` is
`calFind cal b.code` (as `getBookingAndEvent` computes it), the insert oracle
answers the id the state model would assign, and the calls the handler makes
are applied to the state. -/
def runCreate (b : Booking) (cal : Calendar) : Calendar :=
  let eventID := calFind cal b.code
  let r := handleBookingCreated b eventID "" (Except.ok (freshId cal.nextId))
  r.1.foldl applyCall cal

/-- The number of calendar events matching query `q`. -/
def countMatching (cal : Calendar) (q : String) : Nat :=
  (cal.items.filter (matchesQuery q)).length

/-! ## Helper lemmas -/

theorem listStartsWith_refl (l : List Char) : listStartsWith l l = true := by
  induction l with
  | nil => rfl
  | cons a as ih => simp [listStartsWith, ih]

theorem listHasSub_refl (l : List Char) : listHasSub l l = true := by
  cases l with
  | nil => rfl
  | cons a as => simp [listHasSub, listStartsWith_refl]

theorem strContainsSub_refl (s : String) : strContainsSub s s = true :=
  listHasSub_refl s.data

theorem freshId_ne_empty (n : Nat) : freshId n ≠ "" := by
  intro h
  have h2 : (freshId n).data = ("" : String).data := congrArg String.data h
  simp only [freshId] at h2
  have h3 : ("evt" ++ toString n).data = "evt".data ++ (toString n).data := rfl
  rw [h3] at h2
  simp at h2

/-- When nothing in the calendar matches the query, the search finds nothing. -/
theorem calFind_of_no_match (cal : Calendar) (q : String)
    (h : ∀ e ∈ cal.items, matchesQuery q e = false) : calFind cal q = "" := by
  have hf : cal.items.filter (matchesQuery q) = [] := by
    rw [List.filter_eq_nil_iff]
    intro a ha
    simp [h a ha]
  simp [calFind, hf]

/-- The stored event a Create for booking `b` writes, given id counter `n`. -/
def createdStored (b : Booking) (n : Nat) : StoredEvent :=
  { id := freshId n, body := eventBodyOf (createCalendarEventFromBooking b) }

/-- The event written for a booking matches a search for the booking's code,
because its description is exactly the code. -/
theorem matchesQuery_createdStored (b : Booking) (n : Nat) :
    matchesQuery b.code (createdStored b n) = true := by
  simp [matchesQuery, createdStored, eventBodyOf, createCalendarEventFromBooking,
    strContainsSub_refl]

/-- Processing a Create when nothing matches the code inserts exactly the
projected event. -/
theorem runCreate_no_match (b : Booking) (cal : Calendar)
    (h : ∀ e ∈ cal.items, matchesQuery b.code e = false) :
    runCreate b cal =
      { items := cal.items ++ [createdStored b cal.nextId], nextId := cal.nextId + 1 } := by
  have hf := calFind_of_no_match cal b.code h
  simp [runCreate, hf, handleBookingCreated, CreateEvent, applyCall, calInsert, createdStored]

/-- After that insert, the search finds the inserted event's id. -/
theorem calFind_after_create (b : Booking) (cal : Calendar)
    (h : ∀ e ∈ cal.items, matchesQuery b.code e = false) :
    calFind { items := cal.items ++ [createdStored b cal.nextId], nextId := cal.nextId + 1 }
        b.code = freshId cal.nextId := by
  have hf : cal.items.filter (matchesQuery b.code) = [] := by
    rw [List.filter_eq_nil_iff]
    intro a ha
    simp [h a ha]
  have hm := matchesQuery_createdStored b cal.nextId
  simp only [createdStored] at hm
  simp [calFind, List.filter_append, hf, hm, createdStored]

/-- Processing a Create when the search finds an event changes nothing. -/
theorem runCreate_fixed (b : Booking) (cal : Calendar)
    (hne : calFind cal b.code ≠ "") : runCreate b cal = cal := by
  simp [runCreate, handleBookingCreated, hne]

/-! ## Concrete inputs used by witnesses and counterexamples -/

/-- A concrete booking (values shaped like the upstream examples). -/
def b0 : Booking :=
  { id := "2359", clientName := "Alice", clientEmail := "alice@example.com",
    clientPhone := "", startTime := { absSeconds := 1743472800, offsetMinutes := 480 },
    endTime := { absSeconds := 1743474600, offsetMinutes := 480 }, code := "ABC123",
    confirmed := true, serviceID := "1", serviceName := "Consult", providerID := "1",
    providerName := "Dr. Wu", notes := "", status := "confirmed" }

/-! ## Claim theorems -/

/-- C1: replaying the same Create notification N ≥ 1 times for a booking,
starting from a calendar with no event matching the booking's code, leaves
exactly one calendar event matching the code; and whenever the search already
found an event (non-empty event id), the Create handler makes no calendar
call at all and returns success. -/
theorem create_idempotent (b : Booking) (cal : Calendar) (N : Nat)
    (hN : 1 ≤ N) (h : ∀ e ∈ cal.items, matchesQuery b.code e = false) :
    countMatching ((runCreate b)^[N] cal) b.code = 1 ∧
      (∀ eventID bookingID createSvc, eventID ≠ "" →
        handleBookingCreated b eventID bookingID createSvc = ([], Except.ok ())) := by
  constructor
  · obtain ⟨k, rfl⟩ : ∃ k, N = k + 1 := ⟨N - 1, (Nat.succ_pred_eq_of_pos hN).symm⟩
    rw [Function.iterate_succ_apply, runCreate_no_match b cal h]
    have hfind := calFind_after_create b cal h
    have hfix : runCreate b
        { items := cal.items ++ [createdStored b cal.nextId], nextId := cal.nextId + 1 } =
        { items := cal.items ++ [createdStored b cal.nextId], nextId := cal.nextId + 1 } := by
      refine runCreate_fixed b _ ?_
      rw [hfind]
      exact freshId_ne_empty _
    rw [Function.iterate_fixed hfix k]
    have hf : cal.items.filter (matchesQuery b.code) = [] := by
      rw [List.filter_eq_nil_iff]
      intro a ha
      simp [h a ha]
    have hm := matchesQuery_createdStored b cal.nextId
    simp [countMatching, List.filter_append, hf, hm]
  · intro eventID bookingID createSvc hne
    simp [handleBookingCreated, hne]

/-- Witness for C1 at a concrete booking, the empty calendar and N = 3. -/
theorem create_idempotent_witness :
    countMatching ((runCreate b0)^[3] { items := [], nextId := 0 }) b0.code = 1 ∧
      handleBookingCreated b0 "ev1" "2359" (Except.ok "x") = ([], Except.ok ()) := by
  have h := create_idempotent b0 { items := [], nextId := 0 } 3 (by decide)
    (by intro e he; simp at he)
  exact ⟨h.1, h.2 "ev1" "2359" (Except.ok "x") (by decide)⟩

/-- C2: an Update notification for which the search found no event (empty
event id) behaves exactly as the Create handler does in the same situation:
same calendar call, with the same event body, and the same result. -/
theorem update_missing_creates_like_create (b : Booking) (bookingID : String)
    (createSvc : Except CalError String) (updateSvc : Except CalError Unit) :
    handleBookingUpdated b "" bookingID createSvc updateSvc =
      handleBookingCreated b "" bookingID createSvc := by
  simp [handleBookingUpdated, handleBookingCreated]

/-- C3: a cancel notification when the calendar search finds no event makes
no calendar call and succeeds. -/
theorem delete_absent_noop (bookingID clientID providerID serviceID ts : String)
    (b : Booking) (createSvc : Except CalError String)
    (updateSvc deleteSvc : Except CalError Unit) :
    processWebhookEvent
      { action := "cancel", bookingID := bookingID, clientID := clientID,
        providerID := providerID, serviceID := serviceID, timestamp := ts }
      (Except.ok b) (Except.ok "") createSvc updateSvc deleteSvc =
      ({ fetchedBooking := true, searchedCalendar := true, calCalls := [] },
        Except.ok ()) := by
  rfl

/-- C4: a cancel notification whose booking fetch fails terminates with a
reported error (wrapping the fetch failure); no calendar search happens and
no calendar call is made. -/
theorem delete_unfetchable_reported (bookingID clientID providerID serviceID ts msg : String)
    (findr : Except String String) (createSvc : Except CalError String)
    (updateSvc deleteSvc : Except CalError Unit) :
    processWebhookEvent
      { action := "cancel", bookingID := bookingID, clientID := clientID,
        providerID := providerID, serviceID := serviceID, timestamp := ts }
      (Except.error msg) findr createSvc updateSvc deleteSvc =
      ({ fetchedBooking := true, searchedCalendar := false, calCalls := [] },
        Except.error ("獲取預約詳情失敗: " ++ msg)) := by
  rfl

/-- C5 counterexample: with an event found (`"ev1"`) and the update call
answered `notFound`, the Update handler makes no create call and reports the
update failure instead of falling back to a create. -/
theorem update_notfound_no_fallback_cex :
    (handleBookingUpdated b0 "ev1" "2359" (Except.ok "newid")
        (Except.error CalError.notFound)).1.any CalCall.isCreate = false ∧
      (handleBookingUpdated b0 "ev1" "2359" (Except.ok "newid")
          (Except.error CalError.notFound)).2 =
        Except.error
          ("更新日曆事件失敗: " ++ ("更新事件失敗: " ++ "googleapi: Error 404: Not Found")) :=
  ⟨rfl, rfl⟩

/-- C5 amended: when an event was found and the update call fails (for any
service error, `notFound` included), the Update handler issues only the
update call and returns the wrapped update failure; it does not create. -/
theorem update_error_reported (b : Booking) (eventID bookingID : String)
    (createSvc : Except CalError String) (e : CalError) (hne : eventID ≠ "") :
    handleBookingUpdated b eventID bookingID createSvc (Except.error e) =
      ([CalCall.update eventID (eventBodyOf (createCalendarEventFromBooking b))],
        Except.error ("更新日曆事件失敗: " ++ ("更新事件失敗: " ++ e.message))) := by
  simp [handleBookingUpdated, UpdateEvent, hne]

/-- Witness for the amended C5 at a concrete booking and event id. -/
theorem update_error_reported_witness :
    handleBookingUpdated b0 "ev7" "2359" (Except.ok "x") (Except.error CalError.notFound) =
      ([CalCall.update "ev7" (eventBodyOf (createCalendarEventFromBooking b0))],
        Except.error
          ("更新日曆事件失敗: " ++ ("更新事件失敗: " ++ "googleapi: Error 404: Not Found"))) :=
  update_error_reported b0 "ev7" "2359" (Except.ok "x") CalError.notFound (by decide)

/-- C6 counterexample: deleting an already-deleted event (service answers
`notFound`) does not return success. -/
theorem delete_notfound_not_success_cex :
    DeleteEvent "ev1" (Except.error CalError.notFound) ≠ Except.ok () := by
  simp [DeleteEvent]

/-- C6 amended: every service error on delete, `notFound` included, is
wrapped and returned as a failure by `DeleteEvent`, and when an event id was
found the delete handler propagates it with its own wrapping. -/
theorem delete_error_propagated (eventID bookingID : String) (e : CalError) :
    DeleteEvent eventID (Except.error e) =
        Except.error ("刪除事件失敗: " ++ e.message) ∧
      (eventID ≠ "" → handleBookingDeleted eventID bookingID (Except.error e) =
        ([CalCall.delete eventID],
          Except.error ("刪除日曆事件失敗: " ++ ("刪除事件失敗: " ++ e.message)))) := by
  constructor
  · rfl
  · intro hne
    simp [handleBookingDeleted, DeleteEvent, hne]

/-- Witness for the amended C6 at a concrete event id and `notFound`. -/
theorem delete_error_propagated_witness :
    DeleteEvent "ev1" (Except.error CalError.notFound) =
        Except.error ("刪除事件失敗: " ++ "googleapi: Error 404: Not Found") ∧
      handleBookingDeleted "ev1" "2359" (Except.error CalError.notFound) =
        ([CalCall.delete "ev1"],
          Except.error
            ("刪除日曆事件失敗: " ++ ("刪除事件失敗: " ++ "googleapi: Error 404: Not Found"))) :=
  ⟨(delete_error_propagated "ev1" "2359" CalError.notFound).1,
    (delete_error_propagated "ev1" "2359" CalError.notFound).2 (by decide)⟩

/-- C7 counterexample: on a search response with two matches whose first item
does not have the lowest id, the function logs nothing (no warning) and
returns the first item's id, not the lowest. -/
theorem find_multiple_no_warning_cex :
    (FindEventByBookingCode (Except.ok [{ id := "ev9" }, { id := "ev1" }])).2 = [] ∧
      (FindEventByBookingCode (Except.ok [{ id := "ev9" }, { id := "ev1" }])).1 =
        Except.ok "ev9" ∧
      (FindEventByBookingCode (Except.ok [{ id := "ev9" }, { id := "ev1" }])).1 ≠
        Except.ok "ev1" := by
  refine ⟨rfl, rfl, ?_⟩
  simp [FindEventByBookingCode]

/-- C7 amended: the search returns `("", nil)` on zero matches, the single
match's id on one match, and on several matches the first item of the
service's response order, emitting no log line in any case. -/
theorem find_event_by_code_behavior :
    FindEventByBookingCode (Except.ok []) = (Except.ok "", []) ∧
      (∀ item : GEventItem, FindEventByBookingCode (Except.ok [item]) =
        (Except.ok item.id, [])) ∧
      (∀ (first second : GEventItem) (rest : List GEventItem),
        FindEventByBookingCode (Except.ok (first :: second :: rest)) =
          (Except.ok first.id, [])) :=
  ⟨rfl, fun _ => rfl, fun _ _ _ => rfl⟩

/-- A concrete webhook payload with the given action. -/
def payloadWith (action : String) : WebhookPayload :=
  { action := action, bookingID := "2359", clientID := "", providerID := "",
    serviceID := "", timestamp := "" }

/-- C8 counterexample: for an unrecognized action (`"noop"`), processing
still fetches the booking and searches the calendar before failing with the
unsupported-action error. -/
theorem unsupported_after_fetch_cex :
    (processWebhookEvent (payloadWith "noop") (Except.ok b0) (Except.ok "")
        (Except.ok "x") (Except.ok ()) (Except.ok ())).1.fetchedBooking = true ∧
      (processWebhookEvent (payloadWith "noop") (Except.ok b0) (Except.ok "")
          (Except.ok "x") (Except.ok ()) (Except.ok ())).1.searchedCalendar = true ∧
      (processWebhookEvent (payloadWith "noop") (Except.ok b0) (Except.ok "")
          (Except.ok "x") (Except.ok ()) (Except.ok ())).2 =
        Except.error ("不支持的操作類型: " ++ "noop") :=
  ⟨rfl, rfl, rfl⟩

/-- C8 amended: an action that does not lowercase to create/update/cancel
fails with the unsupported-action error and makes no calendar mutation, but
only after the booking fetch and the calendar search have both happened. -/
theorem unsupported_action_after_fetch (payload : WebhookPayload) (b : Booking)
    (eventID : String) (createSvc : Except CalError String)
    (updateSvc deleteSvc : Except CalError Unit)
    (h1 : stringsToLower payload.action ≠ "create")
    (h2 : stringsToLower payload.action ≠ "update")
    (h3 : stringsToLower payload.action ≠ "cancel") :
    processWebhookEvent payload (Except.ok b) (Except.ok eventID)
        createSvc updateSvc deleteSvc =
      ({ fetchedBooking := true, searchedCalendar := true, calCalls := [] },
        Except.error ("不支持的操作類型: " ++ payload.action)) := by
  simp [processWebhookEvent, getBookingAndEvent, h1, h2, h3]

/-- Witness for the amended C8 at the upstream's actual default action. -/
theorem unsupported_action_after_fetch_witness :
    processWebhookEvent (payloadWith "notify") (Except.ok b0) (Except.ok "")
        (Except.ok "x") (Except.ok ()) (Except.ok ()) =
      ({ fetchedBooking := true, searchedCalendar := true, calCalls := [] },
        Except.error ("不支持的操作類型: " ++ "notify")) :=
  unsupported_action_after_fetch _ _ _ _ _ _ (by decide) (by decide) (by decide)

/-- Formatting a parsed RFC3339 value reproduces it: civil time and offset
survive the round trip through the absolute instant. -/
theorem timeFormat_timeParse (s : RFC3339) :
    timeFormatRFC3339 (timeParseRFC3339 s) = s := by
  cases s with
  | mk c o =>
    simp [timeFormatRFC3339, timeParseRFC3339]

/-- C9: when a booking's timestamps were parsed from RFC3339 strings (as the
JSON decoding of `Booking` does), the event body written on create and on
update carries exactly those civil times with their explicit offsets —
unshifted — and the fixed `Asia/Taipei` time zone field; and that body is
what both `CreateEvent` and `UpdateEvent` send. -/
theorem timezone_fidelity (b : Booking) (s en : RFC3339)
    (hs : b.startTime = timeParseRFC3339 s) (he : b.endTime = timeParseRFC3339 en) :
    (eventBodyOf (createCalendarEventFromBooking b)).start.dateTime = s ∧
      (eventBodyOf (createCalendarEventFromBooking b)).endTime.dateTime = en ∧
      (eventBodyOf (createCalendarEventFromBooking b)).start.timeZone = "Asia/Taipei" ∧
      (eventBodyOf (createCalendarEventFromBooking b)).endTime.timeZone = "Asia/Taipei" ∧
      (∀ svc, (CreateEvent (createCalendarEventFromBooking b) svc).1 =
        eventBodyOf (createCalendarEventFromBooking b)) ∧
      (∀ eventID svc, (UpdateEvent eventID (createCalendarEventFromBooking b) svc).1 =
        eventBodyOf (createCalendarEventFromBooking b)) := by
  refine ⟨?_, ?_, rfl, rfl, fun _ => rfl, fun _ _ => rfl⟩
  · show timeFormatRFC3339 b.startTime = s
    rw [hs, timeFormat_timeParse]
  · show timeFormatRFC3339 b.endTime = en
    rw [he, timeFormat_timeParse]

/-- The RFC3339 string for 2025-04-01T10:00:00+08:00 (civil time linearized). -/
def s9 : RFC3339 := { civilSeconds := 1743501600, offsetMinutes := 480 }

/-- The RFC3339 string for 2025-04-01T10:30:00+08:00 (civil time linearized). -/
def e9 : RFC3339 := { civilSeconds := 1743503400, offsetMinutes := 480 }

/-- A booking whose timestamps come from parsing those strings. -/
def b9 : Booking :=
  { b0 with startTime := timeParseRFC3339 s9, endTime := timeParseRFC3339 e9 }

/-- Witness for C9 at the spec's concrete civil times (2025-04-01 10:00 and
10:30 at the fixed +08:00 offset). -/
theorem timezone_fidelity_witness :
    (eventBodyOf (createCalendarEventFromBooking b9)).start.dateTime = s9 ∧
      (eventBodyOf (createCalendarEventFromBooking b9)).endTime.dateTime = e9 := by
  have h := timezone_fidelity b9 s9 e9 rfl rfl
  exact ⟨h.1, h.2.1⟩

/-- C10: action matching lowercases the payload action and is closed over
the literals create/update/cancel: a payload whose action lowercases into
that set is processed exactly like the lowercased payload, while every
payload whose action does not lowercase into that set — `"delete"`
included — is rejected as unsupported with no calendar call. -/
theorem action_case_insensitive_closed (payload : WebhookPayload)
    (gb : Except String Booking) (findr : Except String String) (b : Booking)
    (eventID : String) (createSvc : Except CalError String)
    (updateSvc deleteSvc : Except CalError Unit) :
    (stringsToLower payload.action ∈ (["create", "update", "cancel"] : List String) →
      processWebhookEvent payload gb findr createSvc updateSvc deleteSvc =
        processWebhookEvent { payload with action := stringsToLower payload.action }
          gb findr createSvc updateSvc deleteSvc) ∧
    (stringsToLower payload.action ∉ (["create", "update", "cancel"] : List String) →
      processWebhookEvent payload (Except.ok b) (Except.ok eventID)
          createSvc updateSvc deleteSvc =
        ({ fetchedBooking := true, searchedCalendar := true, calCalls := [] },
          Except.error ("不支持的操作類型: " ++ payload.action))) := by
  have hc : stringsToLower "create" = "create" := by decide
  have hu : stringsToLower "update" = "update" := by decide
  have hca : stringsToLower "cancel" = "cancel" := by decide
  constructor
  · intro hmem
    rcases List.mem_cons.mp hmem with hl | hmem
    · cases hge : getBookingAndEvent gb findr <;>
        simp [processWebhookEvent, hge, hl, hc]
    rcases List.mem_cons.mp hmem with hl | hmem
    · cases hge : getBookingAndEvent gb findr <;>
        simp [processWebhookEvent, hge, hl, hu]
    rcases List.mem_cons.mp hmem with hl | hmem
    · cases hge : getBookingAndEvent gb findr <;>
        simp [processWebhookEvent, hge, hl, hca]
    · simp at hmem
  · intro hmem
    simp only [List.mem_cons, List.not_mem_nil, or_false, not_or] at hmem
    obtain ⟨h1, h2, h3⟩ := hmem
    simp [processWebhookEvent, getBookingAndEvent, h1, h2, h3]

/-- Witness for C10: `"CANCEL"` is processed like `"cancel"`, and `"delete"`
is rejected as unsupported, at concrete inputs. -/
theorem action_case_insensitive_closed_witness :
    (processWebhookEvent (payloadWith "CANCEL") (Except.ok b0) (Except.ok "ev1")
        (Except.ok "x") (Except.ok ()) (Except.ok ()) =
      processWebhookEvent (payloadWith "cancel") (Except.ok b0) (Except.ok "ev1")
        (Except.ok "x") (Except.ok ()) (Except.ok ())) ∧
    (processWebhookEvent (payloadWith "delete") (Except.ok b0) (Except.ok "ev1")
        (Except.ok "x") (Except.ok ()) (Except.ok ()) =
      ({ fetchedBooking := true, searchedCalendar := true, calCalls := [] },
        Except.error ("不支持的操作類型: " ++ "delete"))) := by
  constructor
  · exact (action_case_insensitive_closed (payloadWith "CANCEL") (Except.ok b0)
      (Except.ok "ev1") b0 "ev1" (Except.ok "x") (Except.ok ()) (Except.ok ())).1
      (by decide)
  · exact (action_case_insensitive_closed (payloadWith "delete") (Except.ok b0)
      (Except.ok "ev1") b0 "ev1" (Except.ok "x") (Except.ok ()) (Except.ok ())).2
      (by decide)
